import Mathlib

/-!
Shallow embedding of `src/backend/server.py` (a Flask RAG backend):
the ingestion handler `upload_document` (route `/upload-document`) and the
query handler `ask_question` (route `/query-rag`), together with the
process-wide active-collection state `ACTIVE_COLLECTION`.

External collaborators (PyPDF2, the text splitter, the embedding model,
PGVector, psycopg2 and the Gemini API) are modelled as outcome parameters
supplied in an environment record; each call the handlers make to them is
recorded as an `Event` in an execution trace, so that ordering and
absence-of-calls properties can be stated.
-/

set_option linter.unusedVariables false

namespace Server

/-- A LangChain `Document(page_content=chunk)` wrapper, as built on line 78
of `server.py`. -/
structure Document where
  page_content : String
  deriving DecidableEq, Repr

/-- JSON values, as parsed by Flask's `request.get_json()`.  Numbers are
modelled as integers; the handlers never compute with them. -/
inductive Json where
  | null : Json
  | bool (b : Bool) : Json
  | num (n : Int) : Json
  | str (s : String) : Json
  | arr (xs : List Json) : Json
  | obj (entries : List (String × Json)) : Json

/-- Python truthiness of a JSON-decoded value (`if not query:` on line 113,
`request.get_json() or {}` on line 111): `None`, `False`, `0`, `""`, `[]`
and `{}` are falsy, everything else truthy. -/
def truthy : Json → Bool
  | .null => false
  | .bool b => b
  | .num n => n ≠ 0
  | .str s => s ≠ ""
  | .arr [] => false
  | .arr (_ :: _) => true
  | .obj [] => false
  | .obj (_ :: _) => true

/-- Python `str()` of a JSON-decoded value, used when the handler
interpolates the query object into the prompt f-string (line 131).  For the
strings the handlers normally receive this is the identity. -/
def pyStr : Json → String
  | .null => "None"
  | .bool b => if b then "True" else "False"
  | .num n => toString n
  | .str s => s
  | .arr _ => "[...]"
  | .obj _ => "{...}"

/-- Python `data.get(key, default)` where `data` came from JSON: succeeds
with the dictionary lookup when `data` is a dict, raises `AttributeError`
otherwise (line 112 calls `.get` on whatever was decoded). -/
def pyGet (data : Json) (key : String) (dflt : Json) : Except String Json :=
  match data with
  | .obj entries => .ok ((entries.lookup key).getD dflt)
  | _ => .error "AttributeError: object has no attribute get"

/-- The body of an incoming `/query-rag` request as Flask sees it:
no JSON media type or no body at all, a body that fails to parse as JSON,
or a successfully parsed JSON value. -/
inductive ReqBody where
  | absent : ReqBody
  | malformed : ReqBody
  | parsed (j : Json) : ReqBody

/-- Modelled from Flask's documented `request.get_json()` semantics (the
library is an external collaborator, not part of this repository): with no
JSON media type it raises `UnsupportedMediaType`, with a malformed body it
raises `BadRequest`, and a parsed JSON `null` is returned as Python `None`
(here `Option.none`). -/
def get_json : ReqBody → Except String (Option Json)
  | .absent => .error "415 Unsupported Media Type: Did not attempt to load JSON data"
  | .malformed => .error "400 Bad Request: Failed to decode JSON object"
  | .parsed .null => .ok none
  | .parsed j => .ok (some j)

/-- The value of `data` after line 111, `data = request.get_json() or {}`:
`None` and every falsy JSON value are replaced by the empty dict.  Raises
exactly when `get_json` raises. -/
def requestData (b : ReqBody) : Except String Json :=
  match get_json b with
  | .error e => .error e
  | .ok none => .ok (.obj [])
  | .ok (some j) => .ok (if truthy j then j else .obj [])

/-- The value of `query` after line 112, `data.get("query", "")`, or the
exception raised on the way there. -/
def extractedQuery (b : ReqBody) : Except String Json :=
  match requestData b with
  | .error e => .error e
  | .ok data => pyGet data "query" (.str "")

/-- One call made by a handler to an external collaborator, in program
order. -/
inductive Event where
  | splitText (chunkSize overlap : Nat) (text : String) : Event
  | dropTable (name : String) : Event
  | initStore (name : String) : Event
  | addDocuments (name : String) (docs : List Document) : Event
  | retrieve (name : String) (query : String) (k : Nat) : Event
  | generate (prompt : String) (temperature : ℚ) : Event
  deriving DecidableEq, Repr

/-- Response bodies: `jsonify({"error": msg})`, `jsonify({"message": msg})`
and `jsonify({"answer": text})`. -/
inductive Body where
  | error (msg : String) : Body
  | message (msg : String) : Body
  | answer (text : String) : Body
  deriving DecidableEq, Repr

/-- An HTTP response: a JSON body and a status code. -/
structure Response where
  body : Body
  status : Nat
  deriving DecidableEq, Repr

/-- Hexadecimal digit character, lower case, as Python's `%x` renders it. -/
def hexChar (d : Nat) : Char :=
  if d < 10 then Char.ofNat (48 + d) else Char.ofNat (87 + d)

/-- Numeric value of a hexadecimal digit character (inverse of `hexChar`
on digits below 16). -/
def hexCharVal (c : Char) : Nat :=
  if c.toNat ≥ 97 then c.toNat - 87 else c.toNat - 48

/-- The `w` base-16 digits of `n`, least significant first. -/
def natToNibbles : Nat → Nat → List Nat
  | 0, _ => []
  | w + 1, n => n % 16 :: natToNibbles w (n / 16)

/-- Reassemble a little-endian base-16 digit list into a number. -/
def nibblesToNat : List Nat → Nat
  | [] => 0
  | d :: ds => d + 16 * nibblesToNat ds

/-- `uuid.uuid4().hex`: the 128-bit value `n` rendered as 32 lower-case
hexadecimal characters, most significant first. -/
def uuidHex (n : Nat) : String :=
  String.mk (((natToNibbles 32 n).reverse).map hexChar)

/-- Line 80: `collection_name = f"documents_{uuid.uuid4().hex}"`, with the
random 128-bit value drawn by `uuid4` made explicit as the argument. -/
def collectionName (nonce : Nat) : String :=
  "documents_" ++ uuidHex nonce

/-- One uploaded file as the ingestion handler sees it: its `filename` and
the outcome of `PdfReader(file)` followed by per-page `extract_text()`
(each page yields `None` or a string; a reader failure raises). -/
structure FileUpload where
  filename : String
  pdfPages : Except String (List (Option String))
  deriving Repr

/-- Python `str.strip()` with no argument: remove whitespace from both
ends of the string.  Only the emptiness of the result is ever used by the
handler (`if not raw_text.strip():` on line 73). -/
def pyStrip (s : String) : String :=
  String.mk
    (((s.data.dropWhile Char.isWhitespace).reverse.dropWhile
        Char.isWhitespace).reverse)

/-- Lines 67-71: accumulate `txt + "\n"` for every page whose extracted
text is truthy (non-`None` and non-empty). -/
def extractRawText (pages : List (Option String)) : String :=
  pages.foldl
    (fun acc t? =>
      match t? with
      | some t => if t ≠ "" then acc ++ t ++ "\n" else acc
      | none => acc)
    ""

/-- Lines 45-52, `init_vector_store`: raises `ValueError` when the
embedding function is falsy, otherwise hands back the store for the named
collection (the `PGVector` constructor's own connectivity outcome is
supplied separately by the environment). -/
def init_vector_store (embeddingLoaded : Bool) (collection : String) :
    Except String String :=
  if embeddingLoaded then .ok collection
  else .error "Embedding function is not initialized."

/-- Environment of one `/upload-document` request: the state of the global
embeddings adapter, the uploaded file, the chunker (parameterized by
`chunk_size` and `chunk_overlap` exactly as `RecursiveCharacterTextSplitter`
is), the random value `uuid4` draws, and the outcomes of the external
psycopg2 / PGVector calls. -/
structure UploadEnv where
  adapterLoaded : Bool
  file : Option FileUpload
  splitFn : Nat → Nat → String → List String
  nonce : Nat
  dropOk : Bool
  storeConn : Except String Unit
  addOutcome : Except String Unit

/-- Result of one `/upload-document` request: the HTTP response, the value
of `ACTIVE_COLLECTION` afterwards, and the trace of external calls. -/
structure UploadResult where
  resp : Response
  active : Option String
  trace : List Event
  deriving Repr

/-- Lines 54-100, the `/upload-document` handler `upload_document`,
executed against the current `ACTIVE_COLLECTION` value. -/
def upload_document (env : UploadEnv) (active : Option String) : UploadResult :=
  if ¬ env.adapterLoaded then
    ⟨⟨.error "Embeddings model failed to load on startup.", 500⟩, active, []⟩
  else
    match env.file with
    | none => ⟨⟨.error "No file uploaded", 400⟩, active, []⟩
    | some f =>
      match f.pdfPages with
      | .error e => ⟨⟨.error e, 500⟩, active, []⟩
      | .ok pages =>
        let raw_text := extractRawText pages
        if pyStrip raw_text = "" then
          ⟨⟨.error "PDF contains no extractable text", 400⟩, active, []⟩
        else
          let chunks := env.splitFn 1000 200 raw_text
          let docs := chunks.map Document.mk
          let name := collectionName env.nonce
          let tr1 :=
            Event.splitText 1000 200 raw_text ::
              (match active with
               | some old => if env.dropOk then [Event.dropTable old] else []
               | none => [])
          match init_vector_store env.adapterLoaded name with
          | .error e => ⟨⟨.error e, 500⟩, active, tr1⟩
          | .ok _ =>
            match env.storeConn with
            | .error e => ⟨⟨.error e, 500⟩, active, tr1 ++ [Event.initStore name]⟩
            | .ok _ =>
              match env.addOutcome with
              | .error e =>
                  ⟨⟨.error e, 500⟩, active, tr1 ++ [Event.initStore name]⟩
              | .ok _ =>
                  ⟨⟨.message ("Stored file '" ++ f.filename ++ "'."), 200⟩,
                    some name,
                    tr1 ++ [Event.initStore name, Event.addDocuments name docs]⟩

/-- Environment of one `/query-rag` request: adapter state, request body,
and the outcomes of the PGVector connection, the retrieval and the Gemini
generation call. -/
structure QueryEnv where
  adapterLoaded : Bool
  reqBody : ReqBody
  storeConn : Except String Unit
  retrieved : Except String (List Document)
  genOutcome : Except String String

/-- The fixed instruction text at the head of the generation prompt
(lines 129-130). -/
def promptInstructions : String :=
  "You are an intelligent assistant. Use ONLY the provided context to answer the user's question. If the answer is not contained within the context, state that you cannot find the answer in the document."

/-- Lines 128-132: the generation prompt assembled from the retrieved
context and the user query. -/
def buildPrompt (context query : String) : String :=
  promptInstructions ++ "\n\nContext:\n" ++ context ++ "\n\nUser question: " ++ query

/-- Line 123: `"\n---\n".join(doc.page_content for doc in docs)`. -/
def joinContext (docs : List Document) : String :=
  String.intercalate "\n---\n" (docs.map Document.page_content)

/-- Lines 102-139, the `/query-rag` handler `ask_question`, executed
against the current `ACTIVE_COLLECTION` value (which it only reads).  The
blanket `except` on lines 137-139 turns every raised exception into the
generic 500 response. -/
def ask_question (env : QueryEnv) (active : Option String) :
    Response × List Event :=
  match active with
  | none => (⟨.error "No document uploaded yet", 400⟩, [])
  | some coll =>
    if ¬ env.adapterLoaded then
      (⟨.error "Embeddings model failed to load", 500⟩, [])
    else
      match extractedQuery env.reqBody with
      | .error _ => (⟨.error "Error fetching answer from Gemini API.", 500⟩, [])
      | .ok q =>
        if ¬ truthy q then
          (⟨.error "Please send a query.", 400⟩, [])
        else
          match init_vector_store env.adapterLoaded coll with
          | .error _ =>
              (⟨.error "Error fetching answer from Gemini API.", 500⟩, [])
          | .ok _ =>
            match env.storeConn with
            | .error _ =>
                (⟨.error "Error fetching answer from Gemini API.", 500⟩,
                  [Event.initStore coll])
            | .ok _ =>
              let tr1 := [Event.initStore coll, Event.retrieve coll (pyStr q) 5]
              match env.retrieved with
              | .error _ =>
                  (⟨.error "Error fetching answer from Gemini API.", 500⟩, tr1)
              | .ok docs =>
                if docs = [] then
                  (⟨.answer "No relevant content found in the uploaded document.", 200⟩,
                    tr1)
                else
                  let prompt := buildPrompt (joinContext docs) (pyStr q)
                  match env.genOutcome with
                  | .error _ =>
                      (⟨.error "Error fetching answer from Gemini API.", 500⟩,
                        tr1 ++ [Event.generate prompt (1 / 10)])
                  | .ok text =>
                      (⟨.answer text, 200⟩,
                        tr1 ++ [Event.generate prompt (1 / 10)])

/-- Line 28: `ACTIVE_COLLECTION = None` at module load. -/
def ACTIVE_COLLECTION_INIT : Option String := none

/-- Whether an event is the `DROP TABLE` of a previous collection. -/
def isDropEvent : Event → Bool
  | .dropTable _ => true
  | _ => false

/-- Whether an event is a successful `store.add_documents` call. -/
def isAddEvent : Event → Bool
  | .addDocuments _ _ => true
  | _ => false

/-- Whether an event is a Gemini `generate_content` call. -/
def isGenerateEvent : Event → Bool
  | .generate _ _ => true
  | _ => false

/-- True when some drop event occurs strictly before some successful
add-documents event in the trace. -/
def dropBeforeAdd : List Event → Bool
  | [] => false
  | e :: rest => (isDropEvent e && rest.any isAddEvent) || dropBeforeAdd rest

/-- Decode a string of hexadecimal characters back into the number it
renders (inverse of `uuidHex` below `2 ^ 128`). -/
def decodeUuidHex (s : String) : Nat :=
  nibblesToNat ((s.data.map hexCharVal).reverse)

/-- Recover the nonce from a generated collection name by stripping the
ten-character leading tag and decoding the hex digits. -/
def decodeCollectionName (s : String) : Nat :=
  decodeUuidHex (String.mk (s.data.drop 10))

/-- A request reaching the server: either an upload or a query. -/
inductive Request where
  | upload (env : UploadEnv) : Request
  | query (env : QueryEnv) : Request

/-- Dispatch one request against the current `ACTIVE_COLLECTION` value,
returning the response, the state afterwards and the external-call trace.
`ask_question` contains no `global ACTIVE_COLLECTION` declaration and no
assignment to it, so the query branch leaves the state untouched. -/
def handle (req : Request) (active : Option String) :
    Response × Option String × List Event :=
  match req with
  | .upload env =>
      let r := upload_document env active
      (r.resp, r.active, r.trace)
  | .query env =>
      let (r, tr) := ask_question env active
      (r, active, tr)

/-- A concrete one-page upload whose external calls all succeed, drawing
nonce 0. -/
def envUploadOk : UploadEnv :=
  ⟨true, some ⟨"doc.pdf", .ok [some "hello"]⟩, fun _ _ s => [s], 0, true,
    .ok (), .ok ()⟩

/-- The same concrete upload with a different document (different file
name, pages and chunking) but the same nonce 0. -/
def envUploadOk2 : UploadEnv :=
  ⟨true, some ⟨"other.pdf", .ok [some "entirely different words", none]⟩,
    fun _ _ s => [s, s], 0, true, .ok (), .ok ()⟩

/-- A concrete upload whose `store.add_documents` call fails with a
detailed storage exception. -/
def envUploadStoreDown : UploadEnv :=
  ⟨true, some ⟨"doc.pdf", .ok [some "hello"]⟩, fun _ _ s => [s], 0, true,
    .error "connection to server at 10.0.0.7, port 5432 failed", .ok ()⟩

/-- The same failing upload with a different internal exception detail. -/
def envUploadStoreDown2 : UploadEnv :=
  ⟨true, some ⟨"doc.pdf", .ok [some "hello"]⟩, fun _ _ s => [s], 0, true,
    .error "password authentication failed for user admin", .ok ()⟩

/-- A concrete query whose body carries a whitespace-only query string and
whose retrieval returns no documents. -/
def envQueryBlank : QueryEnv :=
  ⟨true, .parsed (.obj [("query", .str "   ")]), .ok (), .ok [], .ok "unused"⟩

/-- A concrete query request whose body is not valid JSON. -/
def envQueryMalformed : QueryEnv :=
  ⟨true, .malformed, .ok (), .ok [], .ok "unused"⟩

/-- A concrete query whose retrieval returns one document and whose
generation call succeeds. -/
def envQueryOk : QueryEnv :=
  ⟨true, .parsed (.obj [("query", .str "What is Alpha?")]), .ok (),
    .ok [⟨"Alpha Beta Gamma"⟩], .ok "Alpha is the first letter."⟩

/-- A concrete query against an empty retrieval with a non-blank query. -/
def envQueryNoHits : QueryEnv :=
  ⟨true, .parsed (.obj [("query", .str "What is Alpha?")]), .ok (), .ok [],
    .ok "unused"⟩

/-- A concrete query whose PGVector connection raises a detailed storage
exception. -/
def envQueryStoreDown : QueryEnv :=
  ⟨true, .parsed (.obj [("query", .str "What is Alpha?")]),
    .error "connection to server at 10.0.0.7, port 5432 failed", .ok [],
    .ok "unused"⟩

/-- A concrete query whose body is a JSON object without a "query" key. -/
def envQueryNoKey : QueryEnv :=
  ⟨true, .parsed (.obj [("q", .str "hi")]), .ok (), .ok [], .ok "unused"⟩

/-- A concrete query whose retrieval call raises a detailed exception. -/
def envQueryRetrieveDown : QueryEnv :=
  ⟨true, .parsed (.obj [("query", .str "What is Alpha?")]), .ok (),
    .error "could not read block 7 of relation docs", .ok "unused"⟩

/-- A concrete query whose generation call raises a detailed exception. -/
def envQueryGenDown : QueryEnv :=
  ⟨true, .parsed (.obj [("query", .str "What is Alpha?")]), .ok (),
    .ok [⟨"Alpha Beta Gamma"⟩], .error "429 quota exceeded for model"⟩

/-- A concrete upload issued while the embeddings adapter failed to
load. -/
def envUploadNoAdapter : UploadEnv :=
  ⟨false, some ⟨"doc.pdf", .ok [some "hello"]⟩, fun _ _ s => [s], 0, true,
    .ok (), .ok ()⟩

/-- A concrete query issued while the embeddings adapter failed to
load. -/
def envQueryNoAdapter : QueryEnv :=
  ⟨false, .parsed (.obj [("query", .str "What is Alpha?")]), .ok (), .ok [],
    .ok "unused"⟩

lemma natToNibbles_lt (w : Nat) : ∀ n, ∀ d ∈ natToNibbles w n, d < 16 := by
  induction w with
  | zero => intro n d hd; simp [natToNibbles] at hd
  | succ w ih =>
    intro n d hd
    simp only [natToNibbles, List.mem_cons] at hd
    rcases hd with h | h
    · subst h; exact Nat.mod_lt _ (by norm_num)
    · exact ih _ _ h

lemma nibblesToNat_natToNibbles (w : Nat) :
    ∀ n, n < 16 ^ w → nibblesToNat (natToNibbles w n) = n := by
  induction w with
  | zero => intro n hn; simp [natToNibbles, nibblesToNat]; omega
  | succ w ih =>
    intro n hn
    have hdiv : n / 16 < 16 ^ w := by
      rw [Nat.div_lt_iff_lt_mul (by norm_num)]
      calc n < 16 ^ (w + 1) := hn
        _ = 16 ^ w * 16 := by ring
    simp only [natToNibbles, nibblesToNat, ih _ hdiv]
    omega

lemma hexCharVal_hexChar : ∀ d < 16, hexCharVal (hexChar d) = d := by decide

lemma map_hexCharVal_hexChar (l : List Nat) (h : ∀ d ∈ l, d < 16) :
    (l.map hexChar).map hexCharVal = l := by
  induction l with
  | nil => rfl
  | cons d ds ih =>
    simp only [List.map_cons, List.cons.injEq]
    exact ⟨hexCharVal_hexChar d (h d (List.mem_cons_self d ds)),
      ih fun x hx => h x (List.mem_cons_of_mem d hx)⟩

lemma decodeUuidHex_uuidHex (n : Nat) (h : n < 2 ^ 128) :
    decodeUuidHex (uuidHex n) = n := by
  have h16 : n < 16 ^ 32 := by
    calc n < 2 ^ 128 := h
      _ = 16 ^ 32 := by norm_num
  simp only [decodeUuidHex, uuidHex, List.map_reverse, List.reverse_reverse]
  rw [map_hexCharVal_hexChar _ (natToNibbles_lt 32 n)]
  exact nibblesToNat_natToNibbles 32 n h16

lemma decodeCollectionName_collectionName (n : Nat) (h : n < 2 ^ 128) :
    decodeCollectionName (collectionName n) = n := by
  have hdata : (collectionName n).data = "documents_".data ++ (uuidHex n).data := rfl
  have hlen : "documents_".data.length = 10 := rfl
  simp only [decodeCollectionName, hdata]
  rw [show (10 : Nat) = "documents_".data.length from rfl, List.drop_left]
  exact decodeUuidHex_uuidHex n h

lemma collectionName_inj (n₁ n₂ : Nat) (h₁ : n₁ < 2 ^ 128) (h₂ : n₂ < 2 ^ 128)
    (hne : n₁ ≠ n₂) : collectionName n₁ ≠ collectionName n₂ := by
  intro h
  exact hne (by
    rw [← decodeCollectionName_collectionName n₁ h₁,
      ← decodeCollectionName_collectionName n₂ h₂, h])

/-- Equation for the fully successful ingestion path: adapter loaded, file
present, PDF readable, extractable text, storage reachable and the add
succeeding. -/
lemma upload_document_success (env : UploadEnv) (active : Option String)
    (f : FileUpload) (pages : List (Option String))
    (hA : env.adapterLoaded = true) (hf : env.file = some f)
    (hp : f.pdfPages = .ok pages) (ht : ¬ pyStrip (extractRawText pages) = "")
    (hs : env.storeConn = .ok ()) (ha : env.addOutcome = .ok ()) :
    upload_document env active =
      ⟨⟨.message ("Stored file '" ++ f.filename ++ "'."), 200⟩,
        some (collectionName env.nonce),
        Event.splitText 1000 200 (extractRawText pages) ::
          ((match active with
            | some old => if env.dropOk then [Event.dropTable old] else []
            | none => []) ++
           [Event.initStore (collectionName env.nonce),
            Event.addDocuments (collectionName env.nonce)
              ((env.splitFn 1000 200 (extractRawText pages)).map Document.mk)])⟩ := by
  simp [upload_document, hA, hf, hp, ht, hs, ha, init_vector_store]

/-- Every run of the ingestion handler either fails with a non-200 status
and leaves the state unchanged, or succeeds with status 200 and sets the
state to the freshly generated collection name. -/
lemma upload_document_cases (env : UploadEnv) (active : Option String) :
    ((upload_document env active).active = active ∧
      (upload_document env active).resp.status ≠ 200) ∨
    ((upload_document env active).resp.status = 200 ∧
      (upload_document env active).active = some (collectionName env.nonce)) := by
  by_cases hA : env.adapterLoaded = true
  · rcases hf : env.file with _ | f
    · left; simp [upload_document, hA, hf]
    · rcases hp : f.pdfPages with e | pages
      · left; simp [upload_document, hA, hf, hp]
      · by_cases ht : pyStrip (extractRawText pages) = ""
        · left; simp [upload_document, hA, hf, hp, ht]
        · rcases hs : env.storeConn with e | u
          · left; simp [upload_document, hA, hf, hp, ht, hs, init_vector_store]
          · rcases ha : env.addOutcome with e | v
            · left; simp [upload_document, hA, hf, hp, ht, hs, ha, init_vector_store]
            · right
              simp [upload_document, hA, hf, hp, ht, hs, ha, init_vector_store]
  · left; simp [upload_document, hA]

/-- Any successful `add_documents` call recorded during an upload targets
the freshly generated collection name — that name is a function of the
`uuid4` draw alone. -/
lemma addDocuments_name (env : UploadEnv) (active : Option String)
    (m : String) (d : List Document)
    (h : Event.addDocuments m d ∈ (upload_document env active).trace) :
    m = collectionName env.nonce := by
  by_cases hA : env.adapterLoaded = true
  · rcases hf : env.file with _ | f
    · simp [upload_document, hA, hf] at h
    · rcases hp : f.pdfPages with e | pages
      · simp [upload_document, hA, hf, hp] at h
      · by_cases ht : pyStrip (extractRawText pages) = ""
        · simp [upload_document, hA, hf, hp, ht] at h
        · rcases active with _ | old <;> by_cases hd : env.dropOk = true <;>
            rcases hs : env.storeConn with e | u <;>
            rcases ha : env.addOutcome with e' | v <;>
            simp [upload_document, hA, hf, hp, ht, hd, hs, ha,
              init_vector_store] at h <;>
            tauto
  · simp [upload_document, hA] at h

/-- C1 (counterexample): in a fully successful ingestion with a previous
active collection, the `DROP TABLE` of the old collection is executed
strictly before the new collection is created and populated, so the claim
"the drop never happens before the new Collection's creation and
population have fully succeeded" is false on this concrete run. -/
theorem upload_drop_precedes_population_cex :
    dropBeforeAdd (upload_document envUploadOk (some "documents_old")).trace = true ∧
    (upload_document envUploadOk (some "documents_old")).resp.status = 200 := by
  constructor <;> rfl

/-- C1 (amended): whenever ingestion reaches the storage phase with a
previous active collection and the delete connection succeeds, the trace
begins with the chunking call followed immediately by the `DROP TABLE` of
the old collection, before any store-creation or population event; in
particular, in a fully successful run the drop precedes the population of
the new collection. -/
theorem upload_drop_old_before_new_population (env : UploadEnv) (old : String)
    (f : FileUpload) (pages : List (Option String))
    (hA : env.adapterLoaded = true) (hf : env.file = some f)
    (hp : f.pdfPages = .ok pages) (ht : ¬ pyStrip (extractRawText pages) = "")
    (hd : env.dropOk = true) :
    (∃ rest, (upload_document env (some old)).trace =
        Event.splitText 1000 200 (extractRawText pages) ::
          Event.dropTable old :: rest ∧
        ∀ e ∈ rest, isDropEvent e = false) ∧
    (env.storeConn = .ok () → env.addOutcome = .ok () →
      dropBeforeAdd (upload_document env (some old)).trace = true) := by
  constructor
  · rcases hs : env.storeConn with e | u
    · refine ⟨[Event.initStore (collectionName env.nonce)], ?_, ?_⟩
      · simp [upload_document, hA, hf, hp, ht, hd, hs, init_vector_store]
      · simp [isDropEvent]
    · rcases ha : env.addOutcome with e | v
      · refine ⟨[Event.initStore (collectionName env.nonce)], ?_, ?_⟩
        · simp [upload_document, hA, hf, hp, ht, hd, hs, ha, init_vector_store]
        · simp [isDropEvent]
      · refine ⟨[Event.initStore (collectionName env.nonce),
          Event.addDocuments (collectionName env.nonce)
            ((env.splitFn 1000 200 (extractRawText pages)).map Document.mk)],
          ?_, ?_⟩
        · simp [upload_document, hA, hf, hp, ht, hd, hs, ha, init_vector_store]
        · simp [isDropEvent]
  · intro hs ha
    simp [upload_document, hA, hf, hp, ht, hd, hs, ha, init_vector_store,
      dropBeforeAdd, isDropEvent, isAddEvent]

/-- C1 (witness): the amended ordering statement evaluated on the concrete
successful upload `envUploadOk` with previous collection
`documents_old`. -/
theorem upload_drop_old_before_new_population_witness :
    (∃ rest, (upload_document envUploadOk (some "documents_old")).trace =
        Event.splitText 1000 200 (extractRawText [some "hello"]) ::
          Event.dropTable "documents_old" :: rest ∧
        ∀ e ∈ rest, isDropEvent e = false) ∧
    (envUploadOk.storeConn = .ok () → envUploadOk.addOutcome = .ok () →
      dropBeforeAdd (upload_document envUploadOk (some "documents_old")).trace = true) :=
  upload_drop_old_before_new_population envUploadOk "documents_old"
    ⟨"doc.pdf", .ok [some "hello"]⟩ [some "hello"] rfl rfl rfl (by decide) rfl

/-- C2: the active-collection pointer starts as `none`, is set to the
freshly generated collection name exactly by a 200 ingestion, is left
unchanged by every non-200 ingestion and by every query, and once set is
never cleared back to `none`. -/
theorem active_pointer_lifecycle :
    ACTIVE_COLLECTION_INIT = none ∧
    (∀ (env : UploadEnv) (active : Option String),
      (upload_document env active).resp.status = 200 →
      (upload_document env active).active = some (collectionName env.nonce)) ∧
    (∀ (env : UploadEnv) (active : Option String),
      (upload_document env active).resp.status ≠ 200 →
      (upload_document env active).active = active) ∧
    (∀ (qenv : QueryEnv) (active : Option String),
      (handle (.query qenv) active).2.1 = active) ∧
    (∀ (req : Request) (active : Option String) (c : String),
      active = some c → (handle req active).2.1 ≠ none) := by
  refine ⟨rfl, ?_, ?_, ?_, ?_⟩
  · intro env active h
    rcases upload_document_cases env active with ⟨_, hne⟩ | ⟨_, hset⟩
    · exact absurd h hne
    · exact hset
  · intro env active h
    rcases upload_document_cases env active with ⟨hunch, _⟩ | ⟨h200, _⟩
    · exact hunch
    · exact absurd h200 h
  · intro qenv active
    simp [handle]
  · intro req active c hac
    subst hac
    cases req with
    | query qenv => simp [handle]
    | upload uenv =>
      rcases upload_document_cases uenv (some c) with ⟨hunch, _⟩ | ⟨_, hset⟩
      · simp [handle, hunch]
      · simp [handle, hset]

/-- C2 (witness): the lifecycle statement evaluated on a concrete
successful upload, a concrete failing upload (adapter down) and a query
against a set pointer. -/
theorem active_pointer_lifecycle_witness :
    (upload_document envUploadOk none).active = some (collectionName 0) ∧
    (upload_document ⟨false, none, fun _ _ s => [s], 0, true, .ok (), .ok ()⟩
        (some "documents_c")).active = some "documents_c" ∧
    (handle (.upload envUploadOk) (some "documents_c")).2.1 ≠ none :=
  ⟨active_pointer_lifecycle.2.1 envUploadOk none (by decide),
    active_pointer_lifecycle.2.2.1
      ⟨false, none, fun _ _ s => [s], 0, true, .ok (), .ok ()⟩
      (some "documents_c") (by decide),
    active_pointer_lifecycle.2.2.2.2 (.upload envUploadOk)
      (some "documents_c") "documents_c" rfl⟩

/-- C3 (counterexample): a query string of three spaces is whitespace-only,
yet with an active collection the handler does not return the empty-query
error — it proceeds to retrieval and here returns the 200 sentinel answer,
so the claim that whitespace-only queries fail with `EmptyQuery` is false
on this concrete run. -/
theorem query_whitespace_not_rejected_cex :
    pyStrip "   " = "" ∧
    (ask_question envQueryBlank (some "documents_c")).1 =
      ⟨.answer "No relevant content found in the uploaded document.", 200⟩ ∧
    (ask_question envQueryBlank (some "documents_c")).1 ≠
      ⟨.error "Please send a query.", 400⟩ := by
  refine ⟨rfl, rfl, by decide⟩

/-- C3 (amended): a query whose decoded `query` value is falsy — the empty
string, a missing key, or any other falsy value, but not a whitespace-only
string — is rejected with 400 "Please send a query." when an active
collection exists and the adapter is loaded; when no active collection
exists, the no-active-document error takes precedence for every body. -/
theorem query_empty_rejection :
    (∀ (env : QueryEnv) (coll : String) (q : Json),
      env.adapterLoaded = true → extractedQuery env.reqBody = .ok q →
      truthy q = false →
      (ask_question env (some coll)).1 = ⟨.error "Please send a query.", 400⟩) ∧
    (∀ env : QueryEnv,
      (ask_question env none).1 = ⟨.error "No document uploaded yet", 400⟩) := by
  constructor
  · intro env coll q hA hq ht
    simp [ask_question, hA, hq, ht]
  · intro env; rfl

/-- C3 (witness): the rejection statement evaluated on a concrete request
whose body lacks a "query" key (decoded query is the empty string) and on
a concrete query with no active collection. -/
theorem query_empty_rejection_witness :
    (ask_question envQueryNoKey (some "documents_c")).1 =
      ⟨.error "Please send a query.", 400⟩ ∧
    (ask_question envQueryOk none).1 = ⟨.error "No document uploaded yet", 400⟩ :=
  ⟨query_empty_rejection.1 envQueryNoKey "documents_c" (.str "") rfl rfl rfl,
    query_empty_rejection.2 envQueryOk⟩

/-- C4: with no active collection the query handler returns the
no-active-document 400 error and makes no external call at all: the trace
is empty, so neither the embedding provider, nor the collection store, nor
the generation service is contacted. -/
theorem query_no_active_document (env : QueryEnv) :
    ask_question env none = (⟨.error "No document uploaded yet", 400⟩, []) :=
  rfl

/-- C5: a non-empty query whose retrieval returns zero documents yields
the 200 sentinel answer, with only the store connection and the retrieval
in the trace — in particular no generation call. -/
theorem query_zero_results_sentinel (env : QueryEnv) (coll : String) (q : Json)
    (hA : env.adapterLoaded = true) (hq : extractedQuery env.reqBody = .ok q)
    (ht : truthy q = true) (hs : env.storeConn = .ok ())
    (hr : env.retrieved = .ok []) :
    ask_question env (some coll) =
      (⟨.answer "No relevant content found in the uploaded document.", 200⟩,
        [Event.initStore coll, Event.retrieve coll (pyStr q) 5]) ∧
    (ask_question env (some coll)).2.any isGenerateEvent = false := by
  have h1 : ask_question env (some coll) =
      (⟨.answer "No relevant content found in the uploaded document.", 200⟩,
        [Event.initStore coll, Event.retrieve coll (pyStr q) 5]) := by
    simp [ask_question, hA, hq, ht, hs, hr, init_vector_store]
  exact ⟨h1, by rw [h1]; rfl⟩

/-- C5 (witness): the sentinel statement evaluated on a concrete non-blank
query whose retrieval is empty. -/
theorem query_zero_results_sentinel_witness :
    ask_question envQueryNoHits (some "documents_c") =
      (⟨.answer "No relevant content found in the uploaded document.", 200⟩,
        [Event.initStore "documents_c",
         Event.retrieve "documents_c" (pyStr (.str "What is Alpha?")) 5]) ∧
    (ask_question envQueryNoHits (some "documents_c")).2.any isGenerateEvent = false :=
  query_zero_results_sentinel envQueryNoHits "documents_c"
    (.str "What is Alpha?") rfl rfl rfl rfl rfl

/-- C6: a query with at least one retrieved chunk retrieves with k = 5,
joins the retrieved chunk texts in order with the "\n---\n" delimiter,
builds the prompt from the fixed instruction text (answer only from the
context; state inability when the context is insufficient), the joined
context and the literal query, calls generation at temperature 1/10, and
returns the generated text verbatim with status 200. -/
theorem query_generation_path (env : QueryEnv) (coll : String) (q : Json)
    (docs : List Document) (t : String)
    (hA : env.adapterLoaded = true) (hq : extractedQuery env.reqBody = .ok q)
    (ht : truthy q = true) (hs : env.storeConn = .ok ())
    (hr : env.retrieved = .ok docs) (hd : docs ≠ [])
    (hg : env.genOutcome = .ok t) :
    ask_question env (some coll) =
      (⟨.answer t, 200⟩,
        [Event.initStore coll, Event.retrieve coll (pyStr q) 5,
         Event.generate (buildPrompt (joinContext docs) (pyStr q)) (1 / 10)]) := by
  simp [ask_question, hA, hq, ht, hs, hr, hd, hg, init_vector_store]

/-- C6 (witness): the generation-path statement evaluated on a concrete
query retrieving one chunk. -/
theorem query_generation_path_witness :
    ask_question envQueryOk (some "documents_c") =
      (⟨.answer "Alpha is the first letter.", 200⟩,
        [Event.initStore "documents_c",
         Event.retrieve "documents_c" (pyStr (.str "What is Alpha?")) 5,
         Event.generate
           (buildPrompt (joinContext [⟨"Alpha Beta Gamma"⟩])
             (pyStr (.str "What is Alpha?"))) (1 / 10)]) :=
  query_generation_path envQueryOk "documents_c" (.str "What is Alpha?")
    [⟨"Alpha Beta Gamma"⟩] "Alpha is the first letter." rfl rfl rfl rfl rfl
    (by decide) rfl

/-- C7: every upload whose extraction succeeds runs the chunker with
chunk size 1000 and overlap 200 on the extracted text, and when storage
succeeds, every produced chunk — wrapped as a `Document` — is added to the
new collection. -/
theorem upload_chunker_and_storage (env : UploadEnv) (active : Option String)
    (f : FileUpload) (pages : List (Option String))
    (hA : env.adapterLoaded = true) (hf : env.file = some f)
    (hp : f.pdfPages = .ok pages) (ht : ¬ pyStrip (extractRawText pages) = "") :
    Event.splitText 1000 200 (extractRawText pages) ∈
      (upload_document env active).trace ∧
    (env.storeConn = .ok () → env.addOutcome = .ok () →
      Event.addDocuments (collectionName env.nonce)
          ((env.splitFn 1000 200 (extractRawText pages)).map Document.mk) ∈
        (upload_document env active).trace) := by
  constructor
  · rcases hs : env.storeConn with e | u
    · simp [upload_document, hA, hf, hp, ht, hs, init_vector_store]
    · rcases ha : env.addOutcome with e | v <;>
        simp [upload_document, hA, hf, hp, ht, hs, ha, init_vector_store]
  · intro hs ha
    rw [upload_document_success env active f pages hA hf hp ht hs ha]
    simp

/-- C7 (witness): the chunking-and-storage statement evaluated on the
concrete successful upload `envUploadOk`. -/
theorem upload_chunker_and_storage_witness :
    Event.splitText 1000 200 (extractRawText [some "hello"]) ∈
      (upload_document envUploadOk none).trace ∧
    (envUploadOk.storeConn = .ok () → envUploadOk.addOutcome = .ok () →
      Event.addDocuments (collectionName envUploadOk.nonce)
          ((envUploadOk.splitFn 1000 200 (extractRawText [some "hello"])).map
            Document.mk) ∈
        (upload_document envUploadOk none).trace) :=
  upload_chunker_and_storage envUploadOk none ⟨"doc.pdf", .ok [some "hello"]⟩
    [some "hello"] rfl rfl rfl (by decide)

/-- C8: collection names are the fixed tag followed by the 32-digit hex
rendering of the fresh 128-bit draw: distinct draws give distinct names,
and the name recorded in any successful population event depends only on
the draw — two uploads with the same draw but arbitrarily different
documents store under the same name, so the name carries no information
about the document. -/
theorem collection_names_fresh_and_content_independent :
    (∀ n₁ n₂ : Nat, n₁ < 2 ^ 128 → n₂ < 2 ^ 128 → n₁ ≠ n₂ →
      collectionName n₁ ≠ collectionName n₂) ∧
    (∀ (env₁ env₂ : UploadEnv) (a₁ a₂ : Option String) (m₁ m₂ : String)
      (d₁ d₂ : List Document),
      env₁.nonce = env₂.nonce →
      Event.addDocuments m₁ d₁ ∈ (upload_document env₁ a₁).trace →
      Event.addDocuments m₂ d₂ ∈ (upload_document env₂ a₂).trace →
      m₁ = m₂) := by
  constructor
  · exact fun n₁ n₂ h₁ h₂ hne => collectionName_inj n₁ n₂ h₁ h₂ hne
  · intro env₁ env₂ a₁ a₂ m₁ m₂ d₁ d₂ hnonce h₁ h₂
    rw [addDocuments_name env₁ a₁ m₁ d₁ h₁, addDocuments_name env₂ a₂ m₂ d₂ h₂,
      hnonce]

/-- C8 (witness): distinctness evaluated at draws 0 and 1, and name
independence evaluated on two concrete uploads of different documents
sharing draw 0. -/
theorem collection_names_fresh_and_content_independent_witness :
    collectionName 0 ≠ collectionName 1 ∧
    collectionName envUploadOk.nonce = collectionName envUploadOk2.nonce :=
  ⟨collection_names_fresh_and_content_independent.1 0 1 (by norm_num)
      (by norm_num) (by norm_num),
    by
      have h := collection_names_fresh_and_content_independent.2 envUploadOk
        envUploadOk2 none none (collectionName 0) (collectionName 0)
        [⟨"hello\n"⟩]
        [⟨"entirely different words\n"⟩, ⟨"entirely different words\n"⟩]
        rfl (by decide) (by decide)
      exact h⟩

/-- C9 (counterexample): an upload whose storage connection raises a
detailed exception returns that exact detail to the caller in the 500
error body — changing the internal failure detail changes the
caller-visible body — so the claim that service failures surface only a
generic message is false on this concrete run. -/
theorem upload_error_detail_to_caller_cex :
    (upload_document envUploadStoreDown none).resp =
      ⟨.error "connection to server at 10.0.0.7, port 5432 failed", 500⟩ ∧
    (upload_document envUploadStoreDown none).resp.body ≠
      (upload_document envUploadStoreDown2 none).resp.body := by
  refine ⟨rfl, by decide⟩

/-- C9 (amended): the embedding-provider initialization failure is
surfaced on both paths as 500 with a fixed generic message, its detail
going only to the startup log; in the query handler every service failure
(storage connection, retrieval, generation) is likewise reported as 500
with the fixed generic message, the detail going only to the log; but in
the upload handler a storage failure is reported as 500 whose error body
is the exception's own message, so there the failure detail reaches the
caller. -/
theorem service_failure_reporting :
    (∀ (env : UploadEnv) (active : Option String),
      env.adapterLoaded = false →
      (upload_document env active).resp =
        ⟨.error "Embeddings model failed to load on startup.", 500⟩) ∧
    (∀ (env : QueryEnv) (coll : String),
      env.adapterLoaded = false →
      (ask_question env (some coll)).1 =
        ⟨.error "Embeddings model failed to load", 500⟩) ∧
    (∀ (env : QueryEnv) (coll : String) (q : Json) (m : String),
      env.adapterLoaded = true → extractedQuery env.reqBody = .ok q →
      truthy q = true → env.storeConn = .error m →
      (ask_question env (some coll)).1 =
        ⟨.error "Error fetching answer from Gemini API.", 500⟩) ∧
    (∀ (env : QueryEnv) (coll : String) (q : Json) (m : String),
      env.adapterLoaded = true → extractedQuery env.reqBody = .ok q →
      truthy q = true → env.storeConn = .ok () → env.retrieved = .error m →
      (ask_question env (some coll)).1 =
        ⟨.error "Error fetching answer from Gemini API.", 500⟩) ∧
    (∀ (env : QueryEnv) (coll : String) (q : Json) (docs : List Document)
      (m : String),
      env.adapterLoaded = true → extractedQuery env.reqBody = .ok q →
      truthy q = true → env.storeConn = .ok () → env.retrieved = .ok docs →
      docs ≠ [] → env.genOutcome = .error m →
      (ask_question env (some coll)).1 =
        ⟨.error "Error fetching answer from Gemini API.", 500⟩) ∧
    (∀ (env : UploadEnv) (active : Option String) (f : FileUpload)
      (pages : List (Option String)) (m : String),
      env.adapterLoaded = true → env.file = some f → f.pdfPages = .ok pages →
      ¬ pyStrip (extractRawText pages) = "" → env.storeConn = .error m →
      (upload_document env active).resp = ⟨.error m, 500⟩) := by
  refine ⟨?_, ?_, ?_, ?_, ?_, ?_⟩
  · intro env active hA
    simp [upload_document, hA]
  · intro env coll hA
    simp [ask_question, hA]
  · intro env coll q m hA hq ht hs
    simp [ask_question, hA, hq, ht, hs, init_vector_store]
  · intro env coll q m hA hq ht hs hr
    simp [ask_question, hA, hq, ht, hs, hr, init_vector_store]
  · intro env coll q docs m hA hq ht hs hr hd hg
    simp [ask_question, hA, hq, ht, hs, hr, hd, hg, init_vector_store]
  · intro env active f pages m hA hf hp ht hs
    simp [upload_document, hA, hf, hp, ht, hs, init_vector_store]

/-- C9 (witness): the reporting statement evaluated on concrete runs: an
upload and a query with the adapter down, queries with failing storage
connection, retrieval and generation, and an upload with a failing storage
connection. -/
theorem service_failure_reporting_witness :
    (upload_document envUploadNoAdapter none).resp =
      ⟨.error "Embeddings model failed to load on startup.", 500⟩ ∧
    (ask_question envQueryNoAdapter (some "documents_c")).1 =
      ⟨.error "Embeddings model failed to load", 500⟩ ∧
    (ask_question envQueryStoreDown (some "documents_c")).1 =
      ⟨.error "Error fetching answer from Gemini API.", 500⟩ ∧
    (ask_question envQueryRetrieveDown (some "documents_c")).1 =
      ⟨.error "Error fetching answer from Gemini API.", 500⟩ ∧
    (ask_question envQueryGenDown (some "documents_c")).1 =
      ⟨.error "Error fetching answer from Gemini API.", 500⟩ ∧
    (upload_document envUploadStoreDown none).resp =
      ⟨.error "connection to server at 10.0.0.7, port 5432 failed", 500⟩ :=
  ⟨service_failure_reporting.1 envUploadNoAdapter none rfl,
    service_failure_reporting.2.1 envQueryNoAdapter "documents_c" rfl,
    service_failure_reporting.2.2.1 envQueryStoreDown "documents_c"
      (.str "What is Alpha?") "connection to server at 10.0.0.7, port 5432 failed"
      rfl rfl rfl rfl,
    service_failure_reporting.2.2.2.1 envQueryRetrieveDown "documents_c"
      (.str "What is Alpha?") "could not read block 7 of relation docs"
      rfl rfl rfl rfl rfl,
    service_failure_reporting.2.2.2.2.1 envQueryGenDown "documents_c"
      (.str "What is Alpha?") [⟨"Alpha Beta Gamma"⟩]
      "429 quota exceeded for model" rfl rfl rfl rfl rfl (by decide) rfl,
    service_failure_reporting.2.2.2.2.2 envUploadStoreDown none
      ⟨"doc.pdf", .ok [some "hello"]⟩ [some "hello"]
      "connection to server at 10.0.0.7, port 5432 failed" rfl rfl rfl
      (by decide) rfl⟩

/-- C10 (counterexample): a request whose body is not valid JSON makes
`request.get_json()` raise; the blanket handler converts this into the
generic 500 response, not the 400 empty-query response, so the claim is
false on this concrete run. -/
theorem query_malformed_body_cex :
    (ask_question envQueryMalformed (some "documents_c")).1 =
      ⟨.error "Error fetching answer from Gemini API.", 500⟩ ∧
    (ask_question envQueryMalformed (some "documents_c")).1 ≠
      ⟨.error "Please send a query.", 400⟩ := by
  refine ⟨rfl, by decide⟩

/-- C10 (amended): with an active collection and the adapter loaded, a
body that parses as a JSON object without a "query" key is treated exactly
like an empty query (400 "Please send a query."), while an absent body or
a body that is not valid JSON raises inside `get_json` and is converted by
the blanket exception handler into the generic 500 response. -/
theorem query_missing_or_unparsable_body :
    (∀ (env : QueryEnv) (coll : String) (entries : List (String × Json)),
      env.adapterLoaded = true → env.reqBody = .parsed (.obj entries) →
      entries.lookup "query" = none →
      (ask_question env (some coll)).1 = ⟨.error "Please send a query.", 400⟩) ∧
    (∀ (env : QueryEnv) (coll : String),
      env.adapterLoaded = true →
      env.reqBody = .absent ∨ env.reqBody = .malformed →
      (ask_question env (some coll)).1 =
        ⟨.error "Error fetching answer from Gemini API.", 500⟩) := by
  constructor
  · intro env coll entries hA hb hlook
    have hq : extractedQuery env.reqBody = .ok (.str "") := by
      cases entries with
      | nil => simp [extractedQuery, requestData, get_json, pyGet, truthy, hb]
      | cons e es =>
        simp [extractedQuery, requestData, get_json, pyGet, truthy, hb, hlook]
    simp [ask_question, hA, hq, truthy]
  · intro env coll hA hb
    rcases hb with hb | hb <;>
      simp [ask_question, hA, extractedQuery, requestData, get_json, hb]

/-- C10 (witness): the amended statement evaluated on a concrete body
without a "query" key and on a concrete malformed body. -/
theorem query_missing_or_unparsable_body_witness :
    (ask_question ⟨true, .parsed (.obj [("q", .str "hi")]), .ok (), .ok [],
        .ok "unused"⟩ (some "documents_c")).1 =
      ⟨.error "Please send a query.", 400⟩ ∧
    (ask_question envQueryMalformed (some "documents_x")).1 =
      ⟨.error "Error fetching answer from Gemini API.", 500⟩ :=
  ⟨query_missing_or_unparsable_body.1
      ⟨true, .parsed (.obj [("q", .str "hi")]), .ok (), .ok [], .ok "unused"⟩
      "documents_c" [("q", .str "hi")] rfl rfl rfl,
    query_missing_or_unparsable_body.2 envQueryMalformed "documents_x" rfl
      (Or.inr rfl)⟩

end Server
